import Mathlib

/-!
Shallow embedding of the ex-GPT frontend API layer
(`frontend/src/utils/exgptAPI.js`) and of the search-history component
(`frontend/src/components/content/SearchHistory/SearchHistory.jsx`).

Network I/O is modelled by environments mapping each fetch site to a
`FetchResult`: either a resolved HTTP response (status plus parsed JSON
body) or a rejected promise carrying a JavaScript error (network error or
`AbortSignal.timeout` abort).  The embedded operations return, next to
their value, the list of observable events (requests sent, retry delays)
in program order.
-/

namespace ExGPT

/-! ## JavaScript string primitives -/

/-- Character-wise lower-casing, as `String.prototype.toLowerCase` acts on
the characters occurring in this code base (ASCII letters are lowered,
Hangul is unchanged). -/
def lowerStr (s : String) : String := String.mk (s.data.map Char.toLower)

/-- `p` is a leading segment of `l`. -/
def leadsList : List Char → List Char → Bool
  | [], _ => true
  | _ :: _, [] => false
  | p :: ps, c :: cs => p == c && leadsList ps cs

/-- Helper for `strIncludes`: scan the haystack position by position. -/
def strIncludesAux (needle : List Char) : List Char → Bool
  | [] => leadsList needle []
  | c :: cs => leadsList needle (c :: cs) || strIncludesAux needle cs

/-- JavaScript `s.includes(sub)`: `sub` occurs contiguously in `s`. -/
def strIncludes (s sub : String) : Bool := strIncludesAux sub.data s.data

theorem leadsList_self : ∀ l : List Char, leadsList l l = true
  | [] => rfl
  | c :: cs => by simp [leadsList, leadsList_self cs]

theorem strIncludesAux_append (needle : List Char) :
    ∀ pre : List Char, strIncludesAux needle (pre ++ needle) = true := by
  intro pre
  induction pre with
  | nil =>
    cases needle with
    | nil => rfl
    | cons c cs => simp [strIncludesAux, leadsList_self]
  | cons c cs ih => simp [strIncludesAux, ih]

/-- A string contains any of its suffixes, in particular `a ++ b` contains
`b`. -/
theorem strIncludes_append_right (a b : String) :
    strIncludes (a ++ b) b = true := by
  have : (a ++ b).data = a.data ++ b.data := String.data_append a b
  simp [strIncludes, this, strIncludesAux_append]

/-! ## Configuration (`API_CONFIG`) -/

def MULTIMODAL_BASE_URL : String := "http://localhost:8201"
def TEST_BACKEND_URL : String := "http://localhost:8200"
def MCP_BASE_URL : String := "http://localhost:8201"
def TIMEOUT : Nat := 120000
def HEALTH_CHECK_TIMEOUT : Nat := 5000
def RETRY_COUNT : Nat := 1
def RETRY_DELAY : Nat := 2000

/-! ## JavaScript errors and fetch outcomes -/

/-- A JavaScript `Error` as observed by the catch blocks: its `name` and
`message`. -/
structure JsError where
  name : String
  message : String
deriving DecidableEq

/-- Outcome of one `fetch` call: the promise resolves with an HTTP status
and a parsed JSON body, or rejects with a JavaScript error (network
failure such as `Failed to fetch`, or a `TimeoutError` abort). -/
inductive FetchResult (β : Type) where
  | success (status : Nat) (body : β)
  | failure (error : JsError)

/-- `Response.ok`: status in the inclusive range 200–299. -/
def okStatus (status : Nat) : Bool := decide (200 ≤ status) && decide (status < 300)

/-- Whether a fetch outcome is a resolved response with `response.ok`. -/
def isOkFetch : FetchResult β → Bool
  | .success status _ => okStatus status
  | .failure _ => false

/-- The error a loop iteration of `ImageSearchAPI.searchImages` records for
a fetch outcome: the rejection error itself, or the synthesized
`HTTP error! status: N` error for a non-ok response; `none` for an ok
response. -/
def httpStatusError (status : Nat) : JsError :=
  ⟨"Error", "HTTP error! status: " ++ toString status⟩

def errOfFetch : FetchResult β → Option JsError
  | .success status _ => if okStatus status then none else some (httpStatusError status)
  | .failure e => some e

/-! ## SearchHistory component (`SearchHistory.jsx`) -/

/-- White space as `String.prototype.trim` strips it, for the characters
occurring in this code base. -/
def isJsSpace (c : Char) : Bool :=
  c == ' ' || c == '\t' || c == '\n' || c == '\r'

/-- JavaScript `query.trim()`. -/
def jsTrim (s : String) : String :=
  String.mk (((s.data.dropWhile isJsSpace).reverse.dropWhile isJsSpace).reverse)

/-- `addToHistory` of `SearchHistory.jsx`: ignore blank queries, otherwise
put the query first, drop earlier copies of it, and keep the first ten
entries. -/
def addToHistory (searchHistory : List String) (query : String) : List String :=
  if jsTrim query = "" then searchHistory
  else (query :: searchHistory.filter (fun item => item != query)).take 10

/-- C7: after any `addToHistory` call on a well-formed state (at most ten
entries, no duplicates) the stored history has at most 10 entries and no
duplicates; for a non-blank query the new query sits at the front and the
entries beyond the cap are dropped from the oldest end (the kept list is a
leading segment of the uncapped one, the dropped part its tail). -/
theorem addToHistory_cap_front_nodup (hst : List String) (q : String)
    (hlen : hst.length ≤ 10) (hnodup : hst.Nodup) :
    (addToHistory hst q).length ≤ 10 ∧ (addToHistory hst q).Nodup ∧
    (jsTrim q ≠ "" →
      (addToHistory hst q).head? = some q ∧
      addToHistory hst q = (q :: hst.filter (fun item => item != q)).take 10 ∧
      q :: hst.filter (fun item => item != q) =
        addToHistory hst q ++ (hst.filter (fun item => item != q)).drop 9) := by
  by_cases hq : jsTrim q = ""
  · simp [addToHistory, hq, hlen, hnodup]
  · have hfilter_nodup : (hst.filter (fun item => item != q)).Nodup :=
      hnodup.filter _
    have hq_not_mem : q ∉ hst.filter (fun item => item != q) := by
      intro hmem
      have := List.of_mem_filter hmem
      simp at this
    have hcons_nodup : (q :: hst.filter (fun item => item != q)).Nodup :=
      List.nodup_cons.mpr ⟨hq_not_mem, hfilter_nodup⟩
    refine ⟨?_, ?_, fun _ => ⟨?_, ?_, ?_⟩⟩
    · simp only [addToHistory, if_neg hq]
      exact List.length_take_le 10 _
    · simp only [addToHistory, if_neg hq]
      exact List.Nodup.sublist (List.take_sublist _ _) hcons_nodup
    · simp [addToHistory, hq]
    · simp [addToHistory, hq]
    · simp only [addToHistory, if_neg hq]
      have hdrop : (q :: hst.filter (fun item => item != q)).drop 10 =
          (hst.filter (fun item => item != q)).drop 9 := rfl
      calc q :: hst.filter (fun item => item != q)
          = (q :: hst.filter (fun item => item != q)).take 10 ++
              (q :: hst.filter (fun item => item != q)).drop 10 :=
            (List.take_append_drop 10 _).symm
        _ = (q :: hst.filter (fun item => item != q)).take 10 ++
              (hst.filter (fun item => item != q)).drop 9 := by rw [hdrop]

/-- Witness for C7 at a concrete non-blank query over a two-entry history. -/
theorem addToHistory_cap_front_nodup_witness :
    (addToHistory ["a", "b"] "c").length ≤ 10 ∧ (addToHistory ["a", "b"] "c").Nodup ∧
    (jsTrim "c" ≠ "" →
      (addToHistory ["a", "b"] "c").head? = some "c" ∧
      addToHistory ["a", "b"] "c" = ("c" :: ["a", "b"].filter (fun item => item != "c")).take 10 ∧
      "c" :: ["a", "b"].filter (fun item => item != "c") =
        addToHistory ["a", "b"] "c" ++ (["a", "b"].filter (fun item => item != "c")).drop 9) :=
  addToHistory_cap_front_nodup ["a", "b"] "c" (by decide) (by decide)

/-! ## ImageSearchAPI.searchImages -/

/-- Fields of the JSON body of a search response that
`ImageSearchAPI.searchImages` reads; `none` models an absent (or
JavaScript-falsy, for the `||`-defaulted fields) key.  `α` is the type of
the opaque image records. -/
structure ImageSearchBody (α : Type) where
  succ : Option Bool := none
  images : Option (List α) := none
  total_count : Option Nat := none
  has_more : Option Bool := none
  search_time_ms : Option Nat := none
  queryEcho : Option String := none

/-- Normalized record returned by `ImageSearchAPI.searchImages` on an ok
response. -/
structure ImageSearchResult (α : Type) where
  success : Bool
  backend : String
  images : List α
  total_count : Nat
  has_more : Bool
  page : Int
  processing_time : Rat
  query : String

/-- The `backendType` label computed for a base URL inside the URL loop. -/
def backendTypeOf (baseUrl : String) : String :=
  if baseUrl = TEST_BACKEND_URL then "테스트" else "메인"

/-- Normalization of an ok response body (the record literal at the
`return` of the attempt loop). -/
def normalizeImageResponse (data : ImageSearchBody α) (baseUrl : String)
    (page : Int) (query : String) : ImageSearchResult α where
  success := decide (data.succ ≠ some false)
  backend := backendTypeOf baseUrl
  images := data.images.getD []
  total_count := data.total_count.getD 0
  has_more := data.has_more.getD false
  page := page
  processing_time :=
    match data.search_time_ms with
    | some ms => if ms = 0 then 0 else (ms : Rat) / 1000
    | none => 0
  query :=
    match data.queryEcho with
    | some s => if s = "" then query else s
    | none => query

/-- Request body posted to `/api/v1/search/images`. -/
structure SearchRequestBody where
  query : String
  limit : Nat
  offset : Int
  filters : List (String × String)
deriving DecidableEq

def mkSearchRequestBody (query : String) (page : Int) (limit : Nat) : SearchRequestBody :=
  ⟨query, limit, (page - 1) * limit, []⟩

/-- Observable events of a `searchImages` call, in program order: each
`fetch` issued (with the URL-list index, the per-URL attempt index, the
full URL and the request body) and each retry delay awaited. -/
inductive SearchEvent where
  | fetch (urlIdx : Nat) (attempt : Nat) (url : String) (body : SearchRequestBody)
  | delay (ms : Nat)
deriving DecidableEq

/-- The network-failure test of the catch block: `Failed to fetch` or
`ERR_CONNECTION_REFUSED` in the message, or a `TimeoutError` name.  Such
an error breaks out of the retry loop for the current URL. -/
def isNetworkError (e : JsError) : Bool :=
  strIncludes e.message "Failed to fetch" ||
  strIncludes e.message "ERR_CONNECTION_REFUSED" ||
  e.name == "TimeoutError"

/-- Result of the per-URL attempt loop: an ok response was normalized and
returned, or the loop `break`-ed on a network/timeout error, or it ran out
of attempts (carrying the `lastError` seen so far). -/
inductive UrlOutcome (α : Type) where
  | success (r : ImageSearchResult α)
  | broke (e : JsError)
  | exhausted (last : Option JsError)

/-- The `lastError` variable after the per-URL loop finished without an ok
response. -/
def lastOf : UrlOutcome α → Option JsError
  | .success _ => none
  | .broke e => some e
  | .exhausted last => last

/-- The event a single fetch of `searchImages` emits. -/
def fetchEv (urlIdx attempt : Nat) (baseUrl query : String) (page : Int)
    (limit : Nat) : SearchEvent :=
  .fetch urlIdx attempt (baseUrl ++ "/api/v1/search/images")
    (mkSearchRequestBody query page limit)

/-- The inner attempt loop `for (let attempt = 0; attempt <= RETRY_COUNT; attempt++)`
of `searchImages`, for one base URL.  `resp a` is the fetch outcome of
attempt `a`; `remaining` counts the attempts still allowed (initially
`RETRY_COUNT + 1`); `last` is the inherited `lastError`.  Returns the
events emitted and the loop outcome.  A delay of `RETRY_DELAY` is awaited
between consecutive attempts (only when another attempt remains). -/
def runUrl (resp : Nat → FetchResult (ImageSearchBody α)) (urlIdx : Nat)
    (baseUrl query : String) (page : Int) (limit : Nat) :
    Nat → Nat → Option JsError → List SearchEvent × UrlOutcome α
  | _, 0, last => ([], .exhausted last)
  | attempt, remaining + 1, _ =>
    let ev := fetchEv urlIdx attempt baseUrl query page limit
    match resp attempt with
    | .success status data =>
      if okStatus status then
        ([ev], .success (normalizeImageResponse data baseUrl page query))
      else
        let e := httpStatusError status
        if isNetworkError e then ([ev], .broke e)
        else
          match remaining with
          | 0 => ([ev], .exhausted (some e))
          | r + 1 =>
            let rest := runUrl resp urlIdx baseUrl query page limit
              (attempt + 1) (r + 1) (some e)
            (ev :: .delay RETRY_DELAY :: rest.1, rest.2)
    | .failure e =>
      if isNetworkError e then ([ev], .broke e)
      else
        match remaining with
        | 0 => ([ev], .exhausted (some e))
        | r + 1 =>
          let rest := runUrl resp urlIdx baseUrl query page limit
            (attempt + 1) (r + 1) (some e)
          (ev :: .delay RETRY_DELAY :: rest.1, rest.2)

/-- Message of the error thrown when every URL is exhausted:
`이미지 검색 실패: ` followed by `lastError?.message || '알 수 없는 오류'`. -/
def failMessage (last : Option JsError) : String :=
  "이미지 검색 실패: " ++
    (match last with
     | some e => if e.message = "" then "알 수 없는 오류" else e.message
     | none => "알 수 없는 오류")

/-- The ordered base URLs `backendUrls` tried by `searchImages`. -/
def backendUrls : List String := [MULTIMODAL_BASE_URL, TEST_BACKEND_URL]

/-- The outer URL loop of `searchImages`: try each base URL in turn with
the attempt loop, keep the first ok result, and throw an aggregated error
once the list is exhausted.  `env i` gives the fetch outcomes of the
`i`-th base URL. -/
def runUrls (env : Nat → Nat → FetchResult (ImageSearchBody α))
    (query : String) (page : Int) (limit : Nat) :
    List String → Nat → Option JsError →
    List SearchEvent × Except String (ImageSearchResult α)
  | [], _, last => ([], .error (failMessage last))
  | baseUrl :: rest, urlIdx, last =>
    let r := runUrl (env urlIdx) urlIdx baseUrl query page limit 0 (RETRY_COUNT + 1) last
    match r.2 with
    | .success res => (r.1, .ok res)
    | out =>
      let tail := runUrls env query page limit rest (urlIdx + 1) (lastOf out)
      (r.1 ++ tail.1, tail.2)

/-- `ImageSearchAPI.searchImages(query, page, limit)` under the network
environment `env` (URL-list index, attempt index ↦ fetch outcome):
returns the emitted events and either the normalized result or the thrown
error message. -/
def searchImages (env : Nat → Nat → FetchResult (ImageSearchBody α))
    (query : String) (page : Int) (limit : Nat) :
    List SearchEvent × Except String (ImageSearchResult α) :=
  runUrls env query page limit backendUrls 0 none

/-! ## Spec-side characterizations of the searchImages retry policy -/

/-- Whether the very first attempt against a URL ends the attempt loop for
that URL: an ok response (return) or a network/timeout classified error
(break).  A non-ok HTTP status whose synthesized error does not look like
a network error leads to a retry instead. -/
def stopsAfterFirst : FetchResult (ImageSearchBody α) → Bool
  | .success status _ => okStatus status || isNetworkError (httpStatusError status)
  | .failure e => isNetworkError e

/-- Whether the attempt loop for one URL ends in an ok, normalized
response: the first attempt is ok, or the first attempt is retried (not a
break) and the second attempt is ok. -/
def urlLoopSucceeds (resp : Nat → FetchResult (ImageSearchBody α)) : Bool :=
  isOkFetch (resp 0) || (!stopsAfterFirst (resp 0) && isOkFetch (resp 1))

def isSuccessOutcome : UrlOutcome α → Bool
  | .success _ => true
  | _ => false

/-- Events the attempt loop for one URL emits, per the spec: one fetch if
the first attempt ends the loop, otherwise two fetches separated by a
`RETRY_DELAY` wait; never more than `RETRY_COUNT + 1 = 2` fetches. -/
def urlTraceSpec (urlIdx : Nat) (baseUrl : String)
    (resp : Nat → FetchResult (ImageSearchBody α)) (query : String)
    (page : Int) (limit : Nat) : List SearchEvent :=
  if stopsAfterFirst (resp 0) then [fetchEv urlIdx 0 baseUrl query page limit]
  else [fetchEv urlIdx 0 baseUrl query page limit, .delay RETRY_DELAY,
        fetchEv urlIdx 1 baseUrl query page limit]

theorem isSuccessOutcome_iff (out : UrlOutcome α) :
    isSuccessOutcome out = true ↔ ∃ r, out = .success r := by
  cases out <;> simp [isSuccessOutcome]

theorem runUrl_trace (resp : Nat → FetchResult (ImageSearchBody α))
    (urlIdx : Nat) (baseUrl query : String) (page : Int) (limit : Nat)
    (last : Option JsError) :
    (runUrl resp urlIdx baseUrl query page limit 0 2 last).1 =
      urlTraceSpec urlIdx baseUrl resp query page limit := by
  cases h0 : resp 0 with
  | success st data =>
    by_cases hok : okStatus st = true
    · simp [runUrl, urlTraceSpec, stopsAfterFirst, h0, hok]
    · by_cases hnet : isNetworkError (httpStatusError st) = true
      · simp [runUrl, urlTraceSpec, stopsAfterFirst, h0, hok, hnet]
      · cases h1 : resp 1 with
        | success st1 data1 =>
          by_cases hok1 : okStatus st1 = true
          · simp [runUrl, urlTraceSpec, stopsAfterFirst, h0, h1, hok, hnet, hok1]
          · by_cases hnet1 : isNetworkError (httpStatusError st1) = true <;>
              simp [runUrl, urlTraceSpec, stopsAfterFirst, h0, h1, hok, hnet, hok1, hnet1]
        | failure e1 =>
          by_cases hnet1 : isNetworkError e1 = true <;>
            simp [runUrl, urlTraceSpec, stopsAfterFirst, h0, h1, hok, hnet, hnet1]
  | failure e =>
    by_cases hnet : isNetworkError e = true
    · simp [runUrl, urlTraceSpec, stopsAfterFirst, h0, hnet]
    · cases h1 : resp 1 with
      | success st1 data1 =>
        by_cases hok1 : okStatus st1 = true
        · simp [runUrl, urlTraceSpec, stopsAfterFirst, h0, h1, hnet, hok1]
        · by_cases hnet1 : isNetworkError (httpStatusError st1) = true <;>
            simp [runUrl, urlTraceSpec, stopsAfterFirst, h0, h1, hnet, hok1, hnet1]
      | failure e1 =>
        by_cases hnet1 : isNetworkError e1 = true <;>
          simp [runUrl, urlTraceSpec, stopsAfterFirst, h0, h1, hnet, hnet1]

theorem runUrl_success_char (resp : Nat → FetchResult (ImageSearchBody α))
    (urlIdx : Nat) (baseUrl query : String) (page : Int) (limit : Nat)
    (last : Option JsError) :
    isSuccessOutcome (runUrl resp urlIdx baseUrl query page limit 0 2 last).2 =
      urlLoopSucceeds resp := by
  cases h0 : resp 0 with
  | success st data =>
    by_cases hok : okStatus st = true
    · simp [runUrl, urlLoopSucceeds, stopsAfterFirst, isOkFetch, isSuccessOutcome, h0, hok]
    · by_cases hnet : isNetworkError (httpStatusError st) = true
      · simp [runUrl, urlLoopSucceeds, stopsAfterFirst, isOkFetch, isSuccessOutcome, h0, hok, hnet]
      · cases h1 : resp 1 with
        | success st1 data1 =>
          by_cases hok1 : okStatus st1 = true <;>
            by_cases hnet1 : isNetworkError (httpStatusError st1) = true <;>
              simp [runUrl, urlLoopSucceeds, stopsAfterFirst, isOkFetch, isSuccessOutcome,
                h0, h1, hok, hnet, hok1, hnet1]
        | failure e1 =>
          by_cases hnet1 : isNetworkError e1 = true <;>
            simp [runUrl, urlLoopSucceeds, stopsAfterFirst, isOkFetch, isSuccessOutcome,
              h0, h1, hok, hnet, hnet1]
  | failure e =>
    by_cases hnet : isNetworkError e = true
    · simp [runUrl, urlLoopSucceeds, stopsAfterFirst, isOkFetch, isSuccessOutcome, h0, hnet]
    · cases h1 : resp 1 with
      | success st1 data1 =>
        by_cases hok1 : okStatus st1 = true <;>
          by_cases hnet1 : isNetworkError (httpStatusError st1) = true <;>
            simp [runUrl, urlLoopSucceeds, stopsAfterFirst, isOkFetch, isSuccessOutcome,
              h0, h1, hnet, hok1, hnet1]
      | failure e1 =>
        by_cases hnet1 : isNetworkError e1 = true <;>
          simp [runUrl, urlLoopSucceeds, stopsAfterFirst, isOkFetch, isSuccessOutcome,
            h0, h1, hnet, hnet1]

theorem runUrl_ok_src (resp : Nat → FetchResult (ImageSearchBody α))
    (urlIdx : Nat) (baseUrl query : String) (page : Int) (limit : Nat)
    (last : Option JsError) (r : ImageSearchResult α)
    (h : (runUrl resp urlIdx baseUrl query page limit 0 2 last).2 = .success r) :
    ∃ a st data, a ≤ RETRY_COUNT ∧ resp a = .success st data ∧ okStatus st = true ∧
      r = normalizeImageResponse data baseUrl page query := by
  cases h0 : resp 0 with
  | success st data =>
    by_cases hok : okStatus st = true
    · refine ⟨0, st, data, by simp [RETRY_COUNT], h0, hok, ?_⟩
      simp [runUrl, h0, hok] at h
      exact h.symm
    · by_cases hnet : isNetworkError (httpStatusError st) = true
      · simp [runUrl, h0, hok, hnet] at h
      · cases h1 : resp 1 with
        | success st1 data1 =>
          by_cases hok1 : okStatus st1 = true
          · refine ⟨1, st1, data1, by simp [RETRY_COUNT], h1, hok1, ?_⟩
            simp [runUrl, h0, h1, hok, hnet, hok1] at h
            exact h.symm
          · by_cases hnet1 : isNetworkError (httpStatusError st1) = true <;>
              simp [runUrl, h0, h1, hok, hnet, hok1, hnet1] at h
        | failure e1 =>
          by_cases hnet1 : isNetworkError e1 = true <;>
            simp [runUrl, h0, h1, hok, hnet, hnet1] at h
  | failure e =>
    by_cases hnet : isNetworkError e = true
    · simp [runUrl, h0, hnet] at h
    · cases h1 : resp 1 with
      | success st1 data1 =>
        by_cases hok1 : okStatus st1 = true
        · refine ⟨1, st1, data1, by simp [RETRY_COUNT], h1, hok1, ?_⟩
          simp [runUrl, h0, h1, hnet, hok1] at h
          exact h.symm
        · by_cases hnet1 : isNetworkError (httpStatusError st1) = true <;>
            simp [runUrl, h0, h1, hnet, hok1, hnet1] at h
      | failure e1 =>
        by_cases hnet1 : isNetworkError e1 = true <;>
          simp [runUrl, h0, h1, hnet, hnet1] at h

theorem runUrl_fail_last (resp : Nat → FetchResult (ImageSearchBody α))
    (urlIdx : Nat) (baseUrl query : String) (page : Int) (limit : Nat)
    (last : Option JsError)
    (h0f : isOkFetch (resp 0) = false) (h1f : isOkFetch (resp 1) = false) :
    ∃ e, errOfFetch (resp (if stopsAfterFirst (resp 0) then 0 else 1)) = some e ∧
      lastOf (runUrl resp urlIdx baseUrl query page limit 0 2 last).2 = some e := by
  cases h0 : resp 0 with
  | success st data =>
    have hok : okStatus st = false := by simpa [isOkFetch, h0] using h0f
    by_cases hnet : isNetworkError (httpStatusError st) = true
    · exact ⟨httpStatusError st, by simp [errOfFetch, stopsAfterFirst, h0, hok, hnet],
        by simp [runUrl, lastOf, h0, hok, hnet]⟩
    · cases h1 : resp 1 with
      | success st1 data1 =>
        have hok1 : okStatus st1 = false := by simpa [isOkFetch, h1] using h1f
        by_cases hnet1 : isNetworkError (httpStatusError st1) = true
        · exact ⟨httpStatusError st1, by simp [errOfFetch, stopsAfterFirst, h0, h1, hok, hok1, hnet],
            by simp [runUrl, lastOf, h0, h1, hok, hok1, hnet, hnet1]⟩
        · exact ⟨httpStatusError st1, by simp [errOfFetch, stopsAfterFirst, h0, h1, hok, hok1, hnet],
            by simp [runUrl, lastOf, h0, h1, hok, hok1, hnet, hnet1]⟩
      | failure e1 =>
        by_cases hnet1 : isNetworkError e1 = true
        · exact ⟨e1, by simp [errOfFetch, stopsAfterFirst, h0, h1, hok, hnet],
            by simp [runUrl, lastOf, h0, h1, hok, hnet, hnet1]⟩
        · exact ⟨e1, by simp [errOfFetch, stopsAfterFirst, h0, h1, hok, hnet],
            by simp [runUrl, lastOf, h0, h1, hok, hnet, hnet1]⟩
  | failure e =>
    by_cases hnet : isNetworkError e = true
    · exact ⟨e, by simp [errOfFetch, stopsAfterFirst, h0, hnet],
        by simp [runUrl, lastOf, h0, hnet]⟩
    · cases h1 : resp 1 with
      | success st1 data1 =>
        have hok1 : okStatus st1 = false := by simpa [isOkFetch, h1] using h1f
        by_cases hnet1 : isNetworkError (httpStatusError st1) = true
        · exact ⟨httpStatusError st1, by simp [errOfFetch, stopsAfterFirst, h0, h1, hok1, hnet],
            by simp [runUrl, lastOf, h0, h1, hok1, hnet, hnet1]⟩
        · exact ⟨httpStatusError st1, by simp [errOfFetch, stopsAfterFirst, h0, h1, hok1, hnet],
            by simp [runUrl, lastOf, h0, h1, hok1, hnet, hnet1]⟩
      | failure e1 =>
        by_cases hnet1 : isNetworkError e1 = true
        · exact ⟨e1, by simp [errOfFetch, stopsAfterFirst, h0, h1, hnet],
            by simp [runUrl, lastOf, h0, h1, hnet, hnet1]⟩
        · exact ⟨e1, by simp [errOfFetch, stopsAfterFirst, h0, h1, hnet],
            by simp [runUrl, lastOf, h0, h1, hnet, hnet1]⟩

theorem runUrls_nil (env : Nat → Nat → FetchResult (ImageSearchBody α))
    (query : String) (page : Int) (limit : Nat) (urlIdx : Nat)
    (last : Option JsError) :
    runUrls env query page limit [] urlIdx last = ([], .error (failMessage last)) := rfl

theorem runUrls_cons_success (env : Nat → Nat → FetchResult (ImageSearchBody α))
    (query : String) (page : Int) (limit : Nat) (baseUrl : String)
    (rest : List String) (urlIdx : Nat) (last : Option JsError)
    (res : ImageSearchResult α)
    (h : (runUrl (env urlIdx) urlIdx baseUrl query page limit 0 2 last).2 = .success res) :
    runUrls env query page limit (baseUrl :: rest) urlIdx last =
      ((runUrl (env urlIdx) urlIdx baseUrl query page limit 0 2 last).1, .ok res) := by
  have h2 : (2 : Nat) = RETRY_COUNT + 1 := rfl
  rw [h2] at h
  simp only [runUrls, h2]
  rw [h]

theorem runUrls_cons_nosuccess (env : Nat → Nat → FetchResult (ImageSearchBody α))
    (query : String) (page : Int) (limit : Nat) (baseUrl : String)
    (rest : List String) (urlIdx : Nat) (last : Option JsError)
    (h : isSuccessOutcome (runUrl (env urlIdx) urlIdx baseUrl query page limit 0 2 last).2 = false) :
    runUrls env query page limit (baseUrl :: rest) urlIdx last =
      ((runUrl (env urlIdx) urlIdx baseUrl query page limit 0 2 last).1 ++
         (runUrls env query page limit rest (urlIdx + 1)
           (lastOf (runUrl (env urlIdx) urlIdx baseUrl query page limit 0 2 last).2)).1,
       (runUrls env query page limit rest (urlIdx + 1)
         (lastOf (runUrl (env urlIdx) urlIdx baseUrl query page limit 0 2 last).2)).2) := by
  have h2 : (2 : Nat) = RETRY_COUNT + 1 := rfl
  rw [h2] at h
  simp only [runUrls, h2]
  rcases hout : (runUrl (env urlIdx) urlIdx baseUrl query page limit 0 (RETRY_COUNT + 1) last).2 with r | e | l
  · rw [hout] at h
    simp [isSuccessOutcome] at h
  · rfl
  · rfl

/-- Shared trace characterization: `searchImages` emits exactly the
spec-side trace of the primary URL, followed by the spec-side trace of the
secondary URL when (and only when) the primary URL loop did not return an
ok response. -/
theorem searchImages_trace (env : Nat → Nat → FetchResult (ImageSearchBody α))
    (query : String) (page : Int) (limit : Nat) :
    (searchImages env query page limit).1 =
      urlTraceSpec 0 MULTIMODAL_BASE_URL (env 0) query page limit ++
        (if urlLoopSucceeds (env 0) then []
         else urlTraceSpec 1 TEST_BACKEND_URL (env 1) query page limit) := by
  show (runUrls env query page limit [MULTIMODAL_BASE_URL, TEST_BACKEND_URL] 0 none).1 = _
  by_cases hs : urlLoopSucceeds (env 0) = true
  · have hsucc : isSuccessOutcome (runUrl (env 0) 0 MULTIMODAL_BASE_URL query page limit 0 2 none).2 = true := by
      rw [runUrl_success_char]; exact hs
    obtain ⟨r, hr⟩ := (isSuccessOutcome_iff _).mp hsucc
    rw [runUrls_cons_success env query page limit _ _ 0 none r hr]
    simp [runUrl_trace, hs]
  · have hns : isSuccessOutcome (runUrl (env 0) 0 MULTIMODAL_BASE_URL query page limit 0 2 none).2 = false := by
      rw [runUrl_success_char]; exact Bool.not_eq_true _ ▸ (by simpa using hs)
    rw [runUrls_cons_nosuccess env query page limit _ _ 0 none hns]
    have htail : ∀ last, (runUrls env query page limit [TEST_BACKEND_URL] 1 last).1 =
        urlTraceSpec 1 TEST_BACKEND_URL (env 1) query page limit := by
      intro last
      by_cases hs1 : isSuccessOutcome (runUrl (env 1) 1 TEST_BACKEND_URL query page limit 0 2 last).2 = true
      · obtain ⟨r1, hr1⟩ := (isSuccessOutcome_iff _).mp hs1
        rw [runUrls_cons_success env query page limit _ _ 1 last r1 hr1]
        exact runUrl_trace (env 1) 1 TEST_BACKEND_URL query page limit last
      · rw [runUrls_cons_nosuccess env query page limit _ _ 1 last (by simpa using hs1)]
        simp [runUrls_nil, runUrl_trace]
    simp only [htail, runUrl_trace]
    simp [hs]

theorem strIncludes_empty (s : String) : strIncludes s "" = true := by
  show strIncludesAux [] s.data = true
  cases s.data with
  | nil => rfl
  | cons c cs => simp [strIncludesAux, leadsList]

/-- The aggregated failure message contains the last error's message. -/
theorem strIncludes_failMessage (e : JsError) :
    strIncludes (failMessage (some e)) e.message = true := by
  by_cases h : e.message = ""
  · rw [h]; exact strIncludes_empty _
  · simp only [failMessage, if_neg h]
    exact strIncludes_append_right _ _

/-- C3: `searchImages` tries the primary base URL first and the secondary
one after it; each URL receives at most `RETRY_COUNT + 1 = 2` fetches,
with a `RETRY_DELAY` wait between two consecutive fetches of the same URL
(`urlTraceSpec` has exactly these two shapes); and a first attempt that
fails with a network/timeout-classified error (`stopsAfterFirst`) ends the
attempts for that URL, control falling to the next URL unless the attempt
returned ok (`urlLoopSucceeds`). -/
theorem searchImages_attempt_policy {α : Type}
    (env : Nat → Nat → FetchResult (ImageSearchBody α))
    (query : String) (page : Int) (limit : Nat) :
    (searchImages env query page limit).1 =
      urlTraceSpec 0 MULTIMODAL_BASE_URL (env 0) query page limit ++
        (if urlLoopSucceeds (env 0) then []
         else urlTraceSpec 1 TEST_BACKEND_URL (env 1) query page limit) :=
  searchImages_trace env query page limit

/-- C2: when no attempt against either base URL yields an ok response,
`searchImages` throws (returns `.error`) with the aggregated message built
from the last attempt's error, and that message contains the last error's
message; it never returns a normal result. -/
theorem searchImages_all_fail_error {α : Type}
    (env : Nat → Nat → FetchResult (ImageSearchBody α))
    (query : String) (page : Int) (limit : Nat)
    (h : ∀ u a, isOkFetch (env u a) = false) :
    ∃ e, errOfFetch (env 1 (if stopsAfterFirst (env 1 0) then 0 else 1)) = some e ∧
      (searchImages env query page limit).2 = .error (failMessage (some e)) ∧
      strIncludes (failMessage (some e)) e.message = true := by
  have hns0 : isSuccessOutcome
      (runUrl (env 0) 0 MULTIMODAL_BASE_URL query page limit 0 2 none).2 = false := by
    rw [runUrl_success_char]
    simp [urlLoopSucceeds, h 0 0, h 0 1]
  have hrw0 := runUrls_cons_nosuccess env query page limit MULTIMODAL_BASE_URL
    [TEST_BACKEND_URL] 0 none hns0
  set last0 := lastOf (runUrl (env 0) 0 MULTIMODAL_BASE_URL query page limit 0 2 none).2 with hlast0
  have hns1 : isSuccessOutcome
      (runUrl (env 1) 1 TEST_BACKEND_URL query page limit 0 2 last0).2 = false := by
    rw [runUrl_success_char]
    simp [urlLoopSucceeds, h 1 0, h 1 1]
  have hrw1 := runUrls_cons_nosuccess env query page limit TEST_BACKEND_URL
    [] 1 last0 hns1
  obtain ⟨e, he, hlast⟩ := runUrl_fail_last (env 1) 1 TEST_BACKEND_URL query page limit
    last0 (h 1 0) (h 1 1)
  refine ⟨e, he, ?_, strIncludes_failMessage e⟩
  show (runUrls env query page limit [MULTIMODAL_BASE_URL, TEST_BACKEND_URL] 0 none).2 =
    .error (failMessage (some e))
  rw [hrw0]
  simp only []
  rw [hrw1]
  simp [runUrls_nil, hlast]

/-- Witness for C2: both backends reject every fetch with
`TypeError: Failed to fetch`. -/
theorem searchImages_all_fail_error_witness :
    ∃ e, errOfFetch ((fun (_ _ : Nat) =>
        (FetchResult.failure ⟨"TypeError", "Failed to fetch"⟩ :
          FetchResult (ImageSearchBody String))) 1
        (if stopsAfterFirst ((fun (_ _ : Nat) =>
            (FetchResult.failure ⟨"TypeError", "Failed to fetch"⟩ :
              FetchResult (ImageSearchBody String))) 1 0) then 0 else 1)) = some e ∧
      (searchImages (fun _ _ =>
        (FetchResult.failure ⟨"TypeError", "Failed to fetch"⟩ :
          FetchResult (ImageSearchBody String))) "해무" 1 20).2 =
        .error (failMessage (some e)) ∧
      strIncludes (failMessage (some e)) e.message = true :=
  searchImages_all_fail_error (fun _ _ =>
    (FetchResult.failure ⟨"TypeError", "Failed to fetch"⟩ :
      FetchResult (ImageSearchBody String))) "해무" 1 20 (fun _ _ => rfl)

/-- C4: when the primary backend answers every attempt with HTTP 500 (a
non-ok status, not a network failure), the secondary base URL is attempted
after the primary one's trace. -/
theorem searchImages_http500_fallback {α : Type}
    (env : Nat → Nat → FetchResult (ImageSearchBody α))
    (query : String) (page : Int) (limit : Nat)
    (h : ∀ a, ∃ body, env 0 a = .success 500 body) :
    ∃ tail, (searchImages env query page limit).1 =
        urlTraceSpec 0 MULTIMODAL_BASE_URL (env 0) query page limit ++ tail ∧
      fetchEv 1 0 TEST_BACKEND_URL query page limit ∈ tail := by
  obtain ⟨b0, hb0⟩ := h 0
  obtain ⟨b1, hb1⟩ := h 1
  have hok : okStatus 500 = false := by decide
  have hnet : isNetworkError (httpStatusError 500) = false := by decide
  have hloop : urlLoopSucceeds (env 0) = false := by
    simp [urlLoopSucceeds, isOkFetch, stopsAfterFirst, hb0, hb1, hok, hnet]
  refine ⟨urlTraceSpec 1 TEST_BACKEND_URL (env 1) query page limit, ?_, ?_⟩
  · rw [searchImages_trace]
    simp [hloop]
  · unfold urlTraceSpec
    split <;> simp

/-- Witness for C4: the primary backend returns HTTP 500 on every attempt,
the secondary one rejects with a network error. -/
theorem searchImages_http500_fallback_witness :
    ∃ tail, (searchImages (fun u _ =>
        if u = 0 then FetchResult.success 500 ({} : ImageSearchBody String)
        else FetchResult.failure ⟨"TypeError", "Failed to fetch"⟩) "해무" 1 20).1 =
        urlTraceSpec 0 MULTIMODAL_BASE_URL ((fun u _ =>
          if u = 0 then FetchResult.success 500 ({} : ImageSearchBody String)
          else FetchResult.failure ⟨"TypeError", "Failed to fetch"⟩) 0) "해무" 1 20 ++ tail ∧
      fetchEv 1 0 TEST_BACKEND_URL "해무" 1 20 ∈ tail :=
  searchImages_http500_fallback (fun u _ =>
    if u = 0 then FetchResult.success 500 ({} : ImageSearchBody String)
    else FetchResult.failure ⟨"TypeError", "Failed to fetch"⟩) "해무" 1 20
    (fun _ => ⟨{}, rfl⟩)

theorem fetch_mem_urlTraceSpec {α : Type} (i : Nat) (b : String)
    (resp : Nat → FetchResult (ImageSearchBody α)) (query : String)
    (page : Int) (limit : Nat) (u a : Nat) (url : String)
    (body : SearchRequestBody)
    (hm : SearchEvent.fetch u a url body ∈ urlTraceSpec i b resp query page limit) :
    url = b ++ "/api/v1/search/images" ∧ body = mkSearchRequestBody query page limit := by
  unfold urlTraceSpec at hm
  split at hm
  · simp [fetchEv] at hm
    exact ⟨hm.2.2.1, hm.2.2.2⟩
  · simp [fetchEv] at hm
    rcases hm with ⟨_, _, h3, h4⟩ | ⟨_, _, h3, h4⟩ <;> exact ⟨h3, h4⟩

/-- C10: every fetch event `searchImages` emits (and it always emits at
least one) posts to `/api/v1/search/images` under one of the two base
URLs, with a body carrying the query unchanged, `limit` itself,
`offset = (page - 1) * limit` and an empty filters object. -/
theorem searchImages_request_body {α : Type}
    (env : Nat → Nat → FetchResult (ImageSearchBody α))
    (query : String) (page : Int) (limit : Nat) (hp : 1 ≤ page) :
    (searchImages env query page limit).1 ≠ [] ∧
    ∀ u a url body, SearchEvent.fetch u a url body ∈ (searchImages env query page limit).1 →
      body.query = query ∧ body.limit = limit ∧ body.offset = (page - 1) * limit ∧
      body.filters = [] ∧ ∃ base ∈ backendUrls, url = base ++ "/api/v1/search/images" := by
  constructor
  · rw [searchImages_trace]
    unfold urlTraceSpec
    split <;> simp
  · intro u a url body hmem
    rw [searchImages_trace] at hmem
    have hbody : url = MULTIMODAL_BASE_URL ++ "/api/v1/search/images" ∧
        body = mkSearchRequestBody query page limit ∨
        url = TEST_BACKEND_URL ++ "/api/v1/search/images" ∧
        body = mkSearchRequestBody query page limit := by
      rcases List.mem_append.mp hmem with hm | hm
      · exact Or.inl (fetch_mem_urlTraceSpec 0 _ _ _ _ _ _ _ _ _ hm)
      · split at hm
        · simp at hm
        · exact Or.inr (fetch_mem_urlTraceSpec 1 _ _ _ _ _ _ _ _ _ hm)
    rcases hbody with ⟨hurl, hb⟩ | ⟨hurl, hb⟩ <;> subst hb <;>
      exact ⟨rfl, rfl, rfl, rfl, _, by simp [backendUrls], hurl⟩

/-- Witness for C10 at page 1. -/
theorem searchImages_request_body_witness :
    (searchImages (fun _ _ =>
        (FetchResult.failure ⟨"TypeError", "Failed to fetch"⟩ :
          FetchResult (ImageSearchBody String))) "해무" 1 20).1 ≠ [] ∧
    ∀ u a url body, SearchEvent.fetch u a url body ∈ (searchImages (fun _ _ =>
        (FetchResult.failure ⟨"TypeError", "Failed to fetch"⟩ :
          FetchResult (ImageSearchBody String))) "해무" 1 20).1 →
      body.query = "해무" ∧ body.limit = 20 ∧ body.offset = (1 - 1) * 20 ∧
      body.filters = [] ∧ ∃ base ∈ backendUrls, url = base ++ "/api/v1/search/images" :=
  searchImages_request_body (fun _ _ =>
    (FetchResult.failure ⟨"TypeError", "Failed to fetch"⟩ :
      FetchResult (ImageSearchBody String))) "해무" 1 20 (by decide)

/-- C8: every ok value `searchImages` returns is the normalization of some
ok HTTP response delivered by the environment: `images` defaults to `[]`,
`total_count` to `0`, `has_more` to `false`, `page` is the page argument,
and `success` is true unless the body carried `success === false`. -/
theorem searchImages_ok_normalized {α : Type}
    (env : Nat → Nat → FetchResult (ImageSearchBody α))
    (query : String) (page : Int) (limit : Nat) (r : ImageSearchResult α)
    (h : (searchImages env query page limit).2 = .ok r) :
    ∃ u a st data, u < 2 ∧ a ≤ RETRY_COUNT ∧ env u a = .success st data ∧
      okStatus st = true ∧
      r.page = page ∧ r.images = data.images.getD [] ∧
      r.total_count = data.total_count.getD 0 ∧
      r.has_more = data.has_more.getD false ∧
      r.success = decide (data.succ ≠ some false) := by
  have hsearch : searchImages env query page limit =
      runUrls env query page limit [MULTIMODAL_BASE_URL, TEST_BACKEND_URL] 0 none := rfl
  rw [hsearch] at h
  by_cases hs0 : isSuccessOutcome
      (runUrl (env 0) 0 MULTIMODAL_BASE_URL query page limit 0 2 none).2 = true
  · obtain ⟨r0, hr0⟩ := (isSuccessOutcome_iff _).mp hs0
    rw [runUrls_cons_success env query page limit _ _ 0 none r0 hr0] at h
    simp only [Except.ok.injEq] at h
    subst h
    obtain ⟨a, st, data, ha, hresp, hok, hr⟩ :=
      runUrl_ok_src (env 0) 0 MULTIMODAL_BASE_URL query page limit none r0 hr0
    subst hr
    exact ⟨0, a, st, data, by norm_num, ha, hresp, hok, rfl, rfl, rfl, rfl, rfl⟩
  · have hns0 : isSuccessOutcome
        (runUrl (env 0) 0 MULTIMODAL_BASE_URL query page limit 0 2 none).2 = false := by
      simpa using hs0
    rw [runUrls_cons_nosuccess env query page limit _ _ 0 none hns0] at h
    simp only [] at h
    set last0 := lastOf (runUrl (env 0) 0 MULTIMODAL_BASE_URL query page limit 0 2 none).2
    by_cases hs1 : isSuccessOutcome
        (runUrl (env 1) 1 TEST_BACKEND_URL query page limit 0 2 last0).2 = true
    · obtain ⟨r1, hr1⟩ := (isSuccessOutcome_iff _).mp hs1
      rw [runUrls_cons_success env query page limit _ _ 1 last0 r1 hr1] at h
      simp only [Except.ok.injEq] at h
      subst h
      obtain ⟨a, st, data, ha, hresp, hok, hr⟩ :=
        runUrl_ok_src (env 1) 1 TEST_BACKEND_URL query page limit last0 r1 hr1
      subst hr
      exact ⟨1, a, st, data, by norm_num, ha, hresp, hok, rfl, rfl, rfl, rfl, rfl⟩
    · have hns1 : isSuccessOutcome
          (runUrl (env 1) 1 TEST_BACKEND_URL query page limit 0 2 last0).2 = false := by
        simpa using hs1
      rw [runUrls_cons_nosuccess env query page limit _ _ 1 last0 hns1] at h
      simp [runUrls_nil] at h

/-- Witness for C8: the primary backend answers the first attempt with an
ok, empty-fielded body. -/
theorem searchImages_ok_normalized_witness :
    ∃ u a st data, u < 2 ∧ a ≤ RETRY_COUNT ∧
      (fun (_ _ : Nat) =>
        (FetchResult.success 200 ({} : ImageSearchBody String))) u a = .success st data ∧
      okStatus st = true ∧
      (normalizeImageResponse ({} : ImageSearchBody String) MULTIMODAL_BASE_URL 1 "해무").page = 1 ∧
      (normalizeImageResponse ({} : ImageSearchBody String) MULTIMODAL_BASE_URL 1 "해무").images =
        data.images.getD [] ∧
      (normalizeImageResponse ({} : ImageSearchBody String) MULTIMODAL_BASE_URL 1 "해무").total_count =
        data.total_count.getD 0 ∧
      (normalizeImageResponse ({} : ImageSearchBody String) MULTIMODAL_BASE_URL 1 "해무").has_more =
        data.has_more.getD false ∧
      (normalizeImageResponse ({} : ImageSearchBody String) MULTIMODAL_BASE_URL 1 "해무").success =
        decide (data.succ ≠ some false) :=
  searchImages_ok_normalized (fun _ _ =>
      (FetchResult.success 200 ({} : ImageSearchBody String))) "해무" 1 20
    (normalizeImageResponse ({} : ImageSearchBody String) MULTIMODAL_BASE_URL 1 "해무") rfl

/-! ## HealthAPI -/

/-- Fields of a health-endpoint JSON body that can collide with the keys
of the object literals `{ status: 'healthy', backend: name, ...data }` /
`{ status: 'healthy', ...data }`: the object spread is written after the
fixed keys, so a key present in the body overrides them. -/
structure HealthBody where
  status : Option String := none
  backend : Option String := none
  message : Option String := none
deriving DecidableEq

/-- The record a health probe returns. -/
structure HealthStatus where
  status : String
  backend : Option String := none
  message : Option String := none
deriving DecidableEq

/-- `HealthAPI.checkBackendHealth(baseUrl, backendName)` on the fetch
outcome `r` of `GET baseUrl/health` (5 s timeout). -/
def checkBackendHealth (r : FetchResult HealthBody) (backendName : String) : HealthStatus :=
  match r with
  | .success status data =>
    if okStatus status then
      { status := data.status.getD "healthy",
        backend := some (data.backend.getD backendName),
        message := data.message }
    else
      { status := "error", backend := some backendName,
        message := some (backendName ++ " backend not responding") }
  | .failure e =>
    if strIncludes e.message "Failed to fetch" ||
        strIncludes e.message "ERR_CONNECTION_REFUSED" then
      { status := "offline", backend := some backendName,
        message := some (backendName ++ " 서버가 실행되지 않습니다") }
    else if e.name = "TimeoutError" then
      { status := "timeout", backend := some backendName,
        message := some (backendName ++ " 서버 응답 시간 초과") }
    else
      { status := "error", backend := some backendName, message := some e.message }

/-- `HealthAPI.checkMCPBackend()` on the fetch outcome `r` of
`GET MCP_BASE_URL/api/v1/health`: note its catch block tests only
`Failed to fetch` and has no `TimeoutError` branch. -/
def checkMCPBackend (r : FetchResult HealthBody) : HealthStatus :=
  match r with
  | .success status data =>
    if okStatus status then
      { status := data.status.getD "healthy", backend := data.backend,
        message := data.message }
    else
      { status := "error", message := some "MCP backend not responding" }
  | .failure e =>
    if strIncludes e.message "Failed to fetch" then
      { status := "offline", message := some "백엔드 서버가 실행되지 않습니다" }
    else
      { status := "error", message := some e.message }

/-- `HealthAPI.checkMultimodalBackend()`: probe the main backend, fall
back to the test backend, and return the main result when neither is
healthy.  `rMain` / `rTest` are the two probes' fetch outcomes. -/
def checkMultimodalBackend (rMain rTest : FetchResult HealthBody) : HealthStatus :=
  let mainResult := checkBackendHealth rMain "메인"
  if mainResult.status = "healthy" then mainResult
  else
    let testResult := checkBackendHealth rTest "테스트"
    if testResult.status = "healthy" then testResult else mainResult

/-- Status classification of `checkBackendHealth` as the amended C5 states
it: network-failure message → `offline`; otherwise a `TimeoutError` name →
`timeout`; any other rejection → `error`; a non-ok response → `error`; an
ok response → `healthy` unless the body's own `status` key overrides it. -/
def classifyHealth (r : FetchResult HealthBody) : String :=
  match r with
  | .success status data =>
    if okStatus status then data.status.getD "healthy" else "error"
  | .failure e =>
    if strIncludes e.message "Failed to fetch" ||
        strIncludes e.message "ERR_CONNECTION_REFUSED" then "offline"
    else if e.name = "TimeoutError" then "timeout"
    else "error"

/-- Status classification of `checkMCPBackend` as the amended C5 states
it: a `Failed to fetch` rejection → `offline`; every other rejection,
timeouts included → `error`; a non-ok response → `error`; an ok response →
`healthy` unless the body's own `status` key overrides it. -/
def classifyMcpHealth (r : FetchResult HealthBody) : String :=
  match r with
  | .success status data =>
    if okStatus status then data.status.getD "healthy" else "error"
  | .failure e =>
    if strIncludes e.message "Failed to fetch" then "offline" else "error"

/-- C5 counterexample: `checkMCPBackend` classifies a timed-out probe
(`TimeoutError`, message `signal timed out`) as `error`, not `timeout`;
and an ok response whose body carries its own `status` key does not yield
`healthy` from `checkBackendHealth` (the spread overrides it). -/
theorem health_classification_counterexample :
    (checkMCPBackend (.failure ⟨"TimeoutError", "signal timed out"⟩)).status = "error" ∧
    (checkMCPBackend (.failure ⟨"TimeoutError", "signal timed out"⟩)).status ≠ "timeout" ∧
    (checkBackendHealth (.success 200 ⟨some "degraded", none, none⟩) "메인").status = "degraded" ∧
    (checkBackendHealth (.success 200 ⟨some "degraded", none, none⟩) "메인").status ≠ "healthy" := by
  refine ⟨?_, ?_, ?_, ?_⟩ <;> decide

/-- C5 (amended): both probes classify their outcomes by
`classifyHealth` / `classifyMcpHealth`: `checkBackendHealth` distinguishes
offline, timeout, HTTP error and healthy, while `checkMCPBackend` folds
timeouts (and every rejection other than `Failed to fetch`) into `error`;
for both, an ok response yields `healthy` only when the body does not
override the `status` key. -/
theorem health_probe_classification (r : FetchResult HealthBody) (backendName : String) :
    (checkBackendHealth r backendName).status = classifyHealth r ∧
    (checkMCPBackend r).status = classifyMcpHealth r := by
  constructor
  · cases r with
    | success st data =>
      by_cases hok : okStatus st = true <;> simp [checkBackendHealth, classifyHealth, hok]
    | failure e =>
      by_cases hf : (strIncludes e.message "Failed to fetch" ||
          strIncludes e.message "ERR_CONNECTION_REFUSED") = true
      · simp [checkBackendHealth, classifyHealth, hf]
      · by_cases ht : e.name = "TimeoutError" <;>
          simp [checkBackendHealth, classifyHealth, hf, ht]
  · cases r with
    | success st data =>
      by_cases hok : okStatus st = true <;> simp [checkMCPBackend, classifyMcpHealth, hok]
    | failure e =>
      by_cases hf : strIncludes e.message "Failed to fetch" = true <;>
        simp [checkMCPBackend, classifyMcpHealth, hf]

/-- C9: `checkMultimodalBackend` returns the main probe's result when it
is healthy; otherwise it returns the test probe's result exactly when that
one is healthy, and falls back to the main result (discarding the test
failure) when both are unhealthy. -/
theorem checkMultimodalBackend_priority (rMain rTest : FetchResult HealthBody) :
    ((checkBackendHealth rMain "메인").status = "healthy" →
      checkMultimodalBackend rMain rTest = checkBackendHealth rMain "메인") ∧
    ((checkBackendHealth rMain "메인").status ≠ "healthy" →
      (checkBackendHealth rTest "테스트").status = "healthy" →
      checkMultimodalBackend rMain rTest = checkBackendHealth rTest "테스트") ∧
    ((checkBackendHealth rMain "메인").status ≠ "healthy" →
      (checkBackendHealth rTest "테스트").status ≠ "healthy" →
      checkMultimodalBackend rMain rTest = checkBackendHealth rMain "메인") := by
  refine ⟨fun h => ?_, fun h1 h2 => ?_, fun h1 h2 => ?_⟩
  · simp [checkMultimodalBackend, h]
  · simp [checkMultimodalBackend, h1, h2]
  · simp [checkMultimodalBackend, h1, h2]

/-- Witness for C9: the main probe is refused, the test probe answers ok. -/
theorem checkMultimodalBackend_priority_witness :
    ((checkBackendHealth (.failure ⟨"TypeError", "Failed to fetch"⟩) "메인").status = "healthy" →
      checkMultimodalBackend (.failure ⟨"TypeError", "Failed to fetch"⟩) (.success 200 ⟨none, none, none⟩) =
        checkBackendHealth (.failure ⟨"TypeError", "Failed to fetch"⟩) "메인") ∧
    ((checkBackendHealth (.failure ⟨"TypeError", "Failed to fetch"⟩) "메인").status ≠ "healthy" →
      (checkBackendHealth (.success 200 ⟨none, none, none⟩) "테스트").status = "healthy" →
      checkMultimodalBackend (.failure ⟨"TypeError", "Failed to fetch"⟩) (.success 200 ⟨none, none, none⟩) =
        checkBackendHealth (.success 200 ⟨none, none, none⟩) "테스트") ∧
    ((checkBackendHealth (.failure ⟨"TypeError", "Failed to fetch"⟩) "메인").status ≠ "healthy" →
      (checkBackendHealth (.success 200 ⟨none, none, none⟩) "테스트").status ≠ "healthy" →
      checkMultimodalBackend (.failure ⟨"TypeError", "Failed to fetch"⟩) (.success 200 ⟨none, none, none⟩) =
        checkBackendHealth (.failure ⟨"TypeError", "Failed to fetch"⟩) "메인") :=
  checkMultimodalBackend_priority (.failure ⟨"TypeError", "Failed to fetch"⟩)
    (.success 200 ⟨none, none, none⟩)

/-! ## ChatAPI.sendMessage -/

/-- A chat message as passed to `sendMessage`. -/
structure ChatMessage where
  role : String
  content : String
  image_url : Option String := none
deriving DecidableEq

/-- The option bag of `sendMessage` / `search`; `none` models an absent
key. -/
structure ChatOptions where
  session_id : Option String := none
  user_id : Option String := none
  department_id : Option String := none
  message_id : Option String := none
  temperature : Option Rat := none
  max_tokens : Option Nat := none
  stream : Option Bool := none
  search_documents : Option Bool := none
  suggest_questions : Option Bool := none
  generate_search_query : Option Bool := none
deriving DecidableEq

/-- JavaScript `x || null` on a string-valued option: an absent key or an
empty (falsy) string becomes `null`. -/
def orNullStr : Option String → Option String
  | some s => if s = "" then none else some s
  | none => none

/-- JavaScript `x || false` on a boolean-valued option. -/
def orFalse : Option Bool → Bool
  | some b => b
  | none => false

/-- JavaScript `x !== false` on a boolean-valued option. -/
def neqFalse : Option Bool → Bool
  | some false => false
  | _ => true

/-- The messages-shaped body posted to `/api/v1/chat/multimodal`. -/
structure MultimodalChatRequest where
  messages : List ChatMessage
  session_id : Option String
  user_id : Option String
  temperature : Rat
  max_tokens : Nat
deriving DecidableEq

def mkMultimodalRequest (messages : List ChatMessage) (options : ChatOptions) :
    MultimodalChatRequest where
  messages := messages.map fun m => ⟨m.role, m.content, orNullStr m.image_url⟩
  session_id := orNullStr options.session_id
  user_id := orNullStr options.user_id
  temperature :=
    match options.temperature with
    | some t => if t = 0 then 7 / 10 else t
    | none => 7 / 10
  max_tokens :=
    match options.max_tokens with
    | some n => if n = 0 then 1000 else n
    | none => 1000

/-- An entry of the history-shaped body. -/
structure HistoryMessage where
  role : String
  content : String
deriving DecidableEq

/-- The history-shaped body posted to `/api/v1/chat`. -/
structure McpChatRequest where
  stream : Bool
  history : List HistoryMessage
  message_id : Option String
  session_id : Option String
  user_id : Option String
  department_id : Option String
  search_documents : Bool
  suggest_questions : Bool
  generate_search_query : Bool
deriving DecidableEq

def mkMcpRequest (messages : List ChatMessage) (options : ChatOptions) :
    McpChatRequest where
  stream := orFalse options.stream
  history := messages.map fun m => ⟨m.role, m.content⟩
  message_id := orNullStr options.message_id
  session_id := orNullStr options.session_id
  user_id := orNullStr options.user_id
  department_id := orNullStr options.department_id
  search_documents := neqFalse options.search_documents
  suggest_questions := orFalse options.suggest_questions
  generate_search_query := neqFalse options.generate_search_query

/-- The chat requests `sendMessage` posts, in order. -/
inductive ChatRequestEvent where
  | multimodal (url : String) (body : MultimodalChatRequest)
  | mcp (url : String) (body : McpChatRequest)
deriving DecidableEq

/-- Fields of a chat response body that the callers read. -/
structure ChatData where
  response : Option String := none
  sources : Option (List String) := none
  suggested_questions : Option (List String) := none
  metadata : Option (List (String × String)) := none
  session_id : Option String := none
  message_id : Option String := none
deriving DecidableEq

def chatTimeoutMessage : String :=
  "요청 시간이 초과되었습니다. 서버가 응답하는데 시간이 오래 걸리고 있습니다. 잠시 후 다시 시도해주세요."

/-- The outer catch block of `sendMessage`: timeouts get a dedicated
message, everything else is wrapped as `채팅 요청 실패: `. -/
def chatCatchMessage (e : JsError) : String :=
  if e.name = "TimeoutError" || strIncludes e.message "timeout" then chatTimeoutMessage
  else "채팅 요청 실패: " ++ e.message

/-- `ChatAPI.sendMessage(messages, options)` under the environment `env`
(0 ↦ the multimodal fetch outcome, 1 ↦ the MCP fetch outcome):
the multimodal endpoint is posted first with the messages-shaped body; if
its response is not ok, or its fetch rejects, the MCP endpoint is posted
exactly once with the history-shaped body; a failure of that second post
reaches the outer catch. -/
def sendMessage (env : Nat → FetchResult ChatData) (messages : List ChatMessage)
    (options : ChatOptions) : List ChatRequestEvent × Except String ChatData :=
  let mmEvent := ChatRequestEvent.multimodal
    (MULTIMODAL_BASE_URL ++ "/api/v1/chat/multimodal") (mkMultimodalRequest messages options)
  let mcpEvent := ChatRequestEvent.mcp
    (MCP_BASE_URL ++ "/api/v1/chat") (mkMcpRequest messages options)
  let mcpStep : List ChatRequestEvent × Except String ChatData :=
    match env 1 with
    | .success status data =>
      if okStatus status then ([mmEvent, mcpEvent], .ok data)
      else ([mmEvent, mcpEvent], .error (chatCatchMessage (httpStatusError status)))
    | .failure e => ([mmEvent, mcpEvent], .error (chatCatchMessage e))
  match env 0 with
  | .success status data => if okStatus status then ([mmEvent], .ok data) else mcpStep
  | .failure _ => mcpStep

/-- C6: `sendMessage` posts the messages-shaped body to the multimodal
endpoint first; exactly when that attempt fails (rejection or non-ok
response), it posts the history-shaped body to `/api/v1/chat` once; each
endpoint is posted at most once, with no retries. -/
theorem sendMessage_endpoint_fallback (env : Nat → FetchResult ChatData)
    (messages : List ChatMessage) (options : ChatOptions) :
    (sendMessage env messages options).1 =
      if isOkFetch (env 0) then
        [ChatRequestEvent.multimodal (MULTIMODAL_BASE_URL ++ "/api/v1/chat/multimodal")
          (mkMultimodalRequest messages options)]
      else
        [ChatRequestEvent.multimodal (MULTIMODAL_BASE_URL ++ "/api/v1/chat/multimodal")
          (mkMultimodalRequest messages options),
         ChatRequestEvent.mcp (MCP_BASE_URL ++ "/api/v1/chat")
          (mkMcpRequest messages options)] := by
  cases h0 : env 0 with
  | success st data =>
    by_cases hok : okStatus st = true
    · simp [sendMessage, isOkFetch, h0, hok]
    · cases h1 : env 1 with
      | success st1 data1 =>
        by_cases hok1 : okStatus st1 = true <;>
          simp [sendMessage, isOkFetch, h0, h1, hok, hok1]
      | failure e1 => simp [sendMessage, isOkFetch, h0, h1, hok]
  | failure e =>
    cases h1 : env 1 with
    | success st1 data1 =>
      by_cases hok1 : okStatus st1 = true <;>
        simp [sendMessage, isOkFetch, h0, h1, hok1]
    | failure e1 => simp [sendMessage, isOkFetch, h0, h1]

/-! ## ExGPTAPI.search (unified facade) -/

/-- The fixed image-search keyword list of `ExGPTAPI.search`. -/
def imageKeywords : List String :=
  ["사진", "이미지", "그림", "해무", "안개", "cctv", "카메라",
   "날씨", "시야", "가시거리", "강우", "강설", "야간", "맑음",
   "경부고속도로", "중부고속도로", "서해안고속도로"]

/-- `imageKeywords.some(keyword => query.toLowerCase().includes(keyword.toLowerCase()))`. -/
def hasImageKeyword (query : String) : Bool :=
  imageKeywords.any fun keyword => strIncludes (lowerStr query) (lowerStr keyword)

/-- The record the chat branch of `search` wraps a chat response into. -/
structure UnifiedChatResult where
  success : Bool
  type : String
  response : Option String
  sources : Option (List String)
  suggested_questions : Option (List String)
  metadata : Option (List (String × String))
  session_id : Option String
  message_id : Option String
deriving DecidableEq

def wrapChatData (d : ChatData) : UnifiedChatResult :=
  ⟨true, "chat", d.response, d.sources, d.suggested_questions, d.metadata,
   d.session_id, d.message_id⟩

/-- Which client `search` dispatched to, with that client's events and
value. -/
inductive DispatchResult (α : Type) where
  | image (events : List SearchEvent) (result : Except String (ImageSearchResult α))
  | chat (events : List ChatRequestEvent) (result : Except String UnifiedChatResult)

/-- The options object `{ session_id: this.sessionId, user_id: this.userId,
department_id: this.departmentId, ...options }` built by the chat branch:
keys present in `options` override the instance fields. -/
def mergedOptions (sessionId : String) (userId departmentId : Option String)
    (options : ChatOptions) : ChatOptions :=
  { options with
    session_id := options.session_id <|> some sessionId
    user_id := options.user_id <|> userId
    department_id := options.department_id <|> departmentId }

/-- `ExGPTAPI.search(query, options)`: route to the image-search client
when the query contains an image keyword (case-insensitively), otherwise
send the query as a single user chat message.  `envImage` / `envChat` are
the two clients' network environments; `sessionId`, `userId` and
`departmentId` are the instance fields. -/
def exgptSearch (envImage : Nat → Nat → FetchResult (ImageSearchBody α))
    (envChat : Nat → FetchResult ChatData) (sessionId : String)
    (userId departmentId : Option String) (query : String)
    (pageOpt : Option Int) (limitOpt : Option Nat) (options : ChatOptions) :
    DispatchResult α :=
  if hasImageKeyword query then
    let page := match pageOpt with
      | some p => if p = 0 then 1 else p
      | none => 1
    let limit := match limitOpt with
      | some l => if l = 0 then 20 else l
      | none => 20
    let r := searchImages envImage query page limit
    .image r.1 r.2
  else
    let r := sendMessage envChat [⟨"user", query, none⟩]
      (mergedOptions sessionId userId departmentId options)
    match r.2 with
    | .ok d => .chat r.1 (.ok (wrapChatData d))
    | .error m => .chat r.1 (.error m)

/-- C1: `search` dispatches to `searchImages` exactly when the query
contains (case-insensitive substring match) some keyword of the fixed
image-keyword list, and to `sendMessage` exactly otherwise. -/
theorem search_dispatch_iff_image_keyword {α : Type}
    (envImage : Nat → Nat → FetchResult (ImageSearchBody α))
    (envChat : Nat → FetchResult ChatData) (sessionId : String)
    (userId departmentId : Option String) (query : String)
    (pageOpt : Option Int) (limitOpt : Option Nat) (options : ChatOptions) :
    ((∃ events result, exgptSearch envImage envChat sessionId userId departmentId
        query pageOpt limitOpt options = .image events result) ↔
      ∃ keyword ∈ imageKeywords,
        strIncludes (lowerStr query) (lowerStr keyword) = true) ∧
    ((∃ events result, exgptSearch envImage envChat sessionId userId departmentId
        query pageOpt limitOpt options = .chat events result) ↔
      ¬ ∃ keyword ∈ imageKeywords,
        strIncludes (lowerStr query) (lowerStr keyword) = true) := by
  have hkey : hasImageKeyword query = true ↔
      ∃ keyword ∈ imageKeywords, strIncludes (lowerStr query) (lowerStr keyword) = true := by
    simp [hasImageKeyword, List.any_eq_true]
  by_cases hq : hasImageKeyword query = true
  · rw [← hkey]
    constructor
    · simp only [exgptSearch, if_pos hq]
      exact ⟨fun _ => hq, fun _ => ⟨_, _, rfl⟩⟩
    · simp only [exgptSearch, if_pos hq]
      constructor
      · rintro ⟨ev, res, h⟩
        cases h
      · intro hc
        exact absurd hq hc
  · rw [← hkey]
    constructor
    · simp only [exgptSearch, if_neg hq]
      constructor
      · rintro ⟨ev, res, h⟩
        rcases hsend : (sendMessage envChat [⟨"user", query, none⟩]
            (mergedOptions sessionId userId departmentId options)).2 with d | m <;>
          rw [hsend] at h <;> cases h
      · intro hc
        exact absurd hc hq
    · simp only [exgptSearch, if_neg hq]
      constructor
      · intro _
        exact hq
      · intro _
        rcases hsend : (sendMessage envChat [⟨"user", query, none⟩]
            (mergedOptions sessionId userId departmentId options)).2 with d | m
        · exact ⟨_, _, rfl⟩
        · exact ⟨_, _, rfl⟩

end ExGPT
